import Mathlib

/-!
Shallow embedding of the OMR evaluation core found in `streamlit_app.py`
(class `ProductionOMRApp`).  Python strings are modelled as `List Char`
(sheet names) or `String` (opaque identifiers), Python floats as `ℚ`,
Python ints as `ℕ`/`ℤ`, and the `np.random` draws consumed by the mock
scorer as explicit arguments constrained by the ranges the code requests.
-/

namespace OMR

/-- Letter grades, in the order produced by the grade ladder of
`generate_processing_result` (B- is lowest, A+ highest). -/
inductive Grade where
  | Bm | B | Bp | Am | A | Ap
deriving DecidableEq, Repr

/-- Rank of a grade in the ladder order B- < B < B+ < A- < A < A+. -/
def gradeRank : Grade → ℕ
  | .Bm => 0
  | .B => 1
  | .Bp => 2
  | .Am => 3
  | .A => 4
  | .Ap => 5

/-- The grade ladder of `generate_processing_result` (lines 883–895):
the if/elif chain on `overall_percentage`. -/
def gradeOf (p : ℚ) : Grade :=
  if p ≥ 90 then .Ap
  else if p ≥ 85 then .A
  else if p ≥ 80 then .Am
  else if p ≥ 75 then .Bp
  else if p ≥ 70 then .B
  else .Bm

/-- The four candidate set letters, in the priority order of the inner
loop of the detection code (lines 574–578): `for set_letter in ['A', 'B', 'C', 'D']`. -/
def setLetters : List Char := ['A', 'B', 'C', 'D']

/-- Upper-cased form of a sheet name, modelling `sheet_name.upper()`. -/
def upperName (name : List Char) : List Char := name.map Char.toUpper

/-- One step of the set-detection loop body (lines 572–578).  The Python
inner loop with `break` finds the first letter of `setLetters` that is a
character of the upper-cased sheet name (`set_letter in sheet_upper`)
and is not yet claimed (`set_letter not in detected_sets`); on success it
appends the (letter, sheet-name) pair to the accumulated mapping. -/
def detectStep (acc : List (Char × List Char)) (name : List Char) : List (Char × List Char) :=
  match setLetters.find? (fun l => (upperName name).contains l && !((acc.map Prod.fst).contains l)) with
  | some l => acc ++ [(l, name)]
  | none => acc

/-- The complete set detector: the outer loop over `excel_data.keys()`
in input order, accumulating `detected_sets`/`set_mapping`.  The label
list `detected_sets` is recovered as `(detectSets names).map Prod.fst`. -/
def detectSets (names : List (List Char)) : List (Char × List Char) :=
  names.foldl detectStep []

/-- Exam session data relevant to key processing, from the `exam_data`
dict built in `create_exam_page` (lines 479–495). -/
structure ExamConfig where
  id : String
  totalQuestions : ℕ
  expectedSets : List Char
  subjectConfig : List (String × ℕ)
deriving DecidableEq, Repr

/-- A raw worksheet grid: rows of cell strings, as loaded by
`pd.read_excel(..., sheet_name=None)`. -/
abbrev Grid := List (List String)

/-- The `st.session_state.answer_keys` dict stored on a successful key
build (lines 645–652), minus the wall-clock timestamp. -/
structure KeysInfo where
  filename : String
  availableSets : List Char
  setMapping : List (Char × List Char)
  totalQuestions : ℕ
  examId : String
deriving DecidableEq, Repr

/-- Outcome of the `Process Answer Keys` button handler (lines 633–670):
the stored keys (if any) together with the warning and error messages
the block emits.  The block contains no `st.warning` call at all, and
exactly two `st.error` calls on the failure path. -/
structure BuildOutcome where
  store : Option KeysInfo
  warnings : List String
  errors : List String
deriving DecidableEq, Repr

/-- The key-build operation of `upload_answer_keys_page`: detection over
the sheet names (lines 569–578) followed by the simulated validation
`validation_passed = len(detected_sets) > 0` (line 639) and session
storage (lines 645–652).  The worksheet grids are never inspected. -/
def upload_process_keys (exam : ExamConfig) (filename : String)
    (sheets : List (List Char × Grid)) : BuildOutcome :=
  let mapping := detectSets (sheets.map Prod.fst)
  if mapping.isEmpty then
    { store := none
      warnings := []
      errors := ["Answer key validation failed!",
                 "Please check your Excel file format and try again."] }
  else
    { store := some
        { filename := filename
          availableSets := mapping.map Prod.fst
          setMapping := mapping
          totalQuestions := exam.totalQuestions
          examId := exam.id }
      warnings := []
      errors := [] }

/-- One entry of the `subject_scores` dict (lines 872–877). -/
structure SubjectScore where
  score : String
  correct : ℕ
  total : ℕ
  percentage : ℚ
deriving DecidableEq, Repr

/-- The result dict returned by `generate_processing_result`
(lines 897–908), minus the wall-clock timestamp. -/
structure ProcessingResult where
  filename : String
  selectedSet : Char
  overallScore : ℚ
  totalCorrect : ℕ
  grade : Grade
  subjectScores : List (String × SubjectScore)
  confidence : ℚ
  processingTime : ℚ
  examId : String
deriving DecidableEq, Repr

/-- The stream of random draws `generate_processing_result` consumes:
`base = np.random.randint(70, 95)` (so 70 ≤ base ≤ 94), one
`np.random.randint(-3, 4)` per subject (so -3 ≤ delta ≤ 3), a
confidence draw from `uniform(0.85, 0.95)` and a processing-time draw
from `uniform(1.8, 3.2)`. -/
structure RandDraws where
  base : ℕ
  deltas : Fin 5 → ℤ
  confidence : ℚ
  processingTime : ℚ

/-- The clamped per-subject score
`max(10, min(20, base_score // 5 + np.random.randint(-3, 4)))` (line 871). -/
def clampedSubjectScore (base : ℕ) (d : ℤ) : ℕ :=
  (max 10 (min 20 ((base / 5 : ℕ) + d))).toNat

/-- Builds one `subject_scores` entry (lines 872–877). -/
def mkSubjectScore (s : ℕ) : SubjectScore :=
  { score := toString s ++ "/20"
    correct := s
    total := 20
    percentage := (s : ℚ) / 20 * 100 }

/-- The fixed subject list of `generate_processing_result` (line 867). -/
def subjects : List String := ["PYTHON", "DATA_ANALYSIS", "MySQL", "POWER_BI", "ADV_STATS"]

/-- `generate_processing_result` (lines 861–908): the mock scorer.  It
receives a filename, the operator-selected set and the stored keys info,
draws random numbers, and never receives any recognized answers or key
contents.  The per-subject loop over the five fixed subjects is
unrolled; `overall_percentage = (total_correct / 100) * 100` uses the
hard-coded denominator 100 of line 881. -/
def generate_processing_result (filename : String) (selectedSet : Char)
    (keysInfo : KeysInfo) (r : RandDraws) : ProcessingResult :=
  let subjectScores : List (String × SubjectScore) :=
    [("PYTHON", mkSubjectScore (clampedSubjectScore r.base (r.deltas 0))),
     ("DATA_ANALYSIS", mkSubjectScore (clampedSubjectScore r.base (r.deltas 1))),
     ("MySQL", mkSubjectScore (clampedSubjectScore r.base (r.deltas 2))),
     ("POWER_BI", mkSubjectScore (clampedSubjectScore r.base (r.deltas 3))),
     ("ADV_STATS", mkSubjectScore (clampedSubjectScore r.base (r.deltas 4)))]
  let totalCorrect : ℕ := (subjectScores.map (fun p => p.2.correct)).sum
  let overallPercentage : ℚ := ((totalCorrect : ℚ) / 100) * 100
  { filename := filename
    selectedSet := selectedSet
    overallScore := overallPercentage
    totalCorrect := totalCorrect
    grade := gradeOf overallPercentage
    subjectScores := subjectScores
    confidence := r.confidence
    processingTime := r.processingTime
    examId := keysInfo.examId }

/-- `np.mean` over a list of rationals (0 on the empty list; the code
only ever applies it behind a non-emptiness guard or to batch data). -/
def mean (xs : List ℚ) : ℚ := xs.sum / (xs.length : ℚ)

/-- Batch statistic: number of processed sheets (`total_sheets`, line 915). -/
def batchTotal (results : List ProcessingResult) : ℕ := results.length

/-- Batch statistic: mean overall score (`avg_score`, line 916). -/
def batchAvgScore (results : List ProcessingResult) : ℚ :=
  mean (results.map (fun r => r.overallScore))

/-- Batch statistic: mean confidence (`avg_confidence`, line 917). -/
def batchAvgConfidence (results : List ProcessingResult) : ℚ :=
  mean (results.map (fun r => r.confidence))

/-- Batch statistic: number of sheets with overall score ≥ 80
(`high_scorers`, line 919; same rule at line 1044). -/
def batchHighScorers (results : List ProcessingResult) : ℕ :=
  (results.filter (fun r => r.overallScore ≥ 80)).length

/-- The members of one variant group: the grouping by `selected_set`
performed at lines 937–942 collects, for a given set letter, exactly the
results whose `selected_set` equals it, in input order. -/
def setGroup (s : Char) (results : List ProcessingResult) : List ProcessingResult :=
  results.filter (fun r => r.selectedSet = s)

/-- Per-variant mean score (`avg_set_score`, line 946; also line 1123). -/
def setAvgScore (s : Char) (results : List ProcessingResult) : ℚ :=
  mean ((setGroup s results).map (fun r => r.overallScore))

/-- Per-variant grade histogram entry (`grade_counts`, lines 1134–1136). -/
def setGradeCount (s : Char) (g : Grade) (results : List ProcessingResult) : ℕ :=
  ((setGroup s results).filter (fun r => r.grade = g)).length

/-- The distinct variant labels in order of first appearance: the key
insertion order of the `set_results` / `set_analysis` dicts. -/
def distinctSets (results : List ProcessingResult) : List Char :=
  results.foldl (fun acc r => if acc.contains r.selectedSet then acc else acc ++ [r.selectedSet]) []

/-- The sidebar quick statistics (`render_quick_stats`, lines 187–202):
the processed count, and the average score metric which is computed
only when the count is positive and displayed as `0%` otherwise. -/
structure QuickStats where
  processedCount : ℕ
  avgScore : ℚ
deriving DecidableEq, Repr

/-- `render_quick_stats` (lines 187–202) as a function of the results log. -/
def render_quick_stats (results : List ProcessingResult) : QuickStats :=
  { processedCount := results.length
    avgScore := if results.length > 0 then mean (results.map (fun r => r.overallScore)) else 0 }

/-- The analytics block of `view_results_page` (lines 1039–1141):
overall statistics plus the per-variant breakdown. -/
structure Analytics where
  totalProcessed : ℕ
  avgScore : ℚ
  highScorers : ℕ
  avgConfidence : ℚ
  setAnalysis : List (Char × ℕ × ℚ)
deriving DecidableEq, Repr

/-- `view_results_page` (lines 1019–1141) as a function of the results
log: on an empty log the page returns early (lines 1024–1035) and
computes no statistics and no per-variant breakdown at all. -/
def view_results (results : List ProcessingResult) : Option Analytics :=
  if results.isEmpty then none
  else some
    { totalProcessed := results.length
      avgScore := batchAvgScore results
      highScorers := batchHighScorers results
      avgConfidence := batchAvgConfidence results
      setAnalysis := (distinctSets results).map
        (fun s => (s, (setGroup s results).length, setAvgScore s results)) }

/-- Sample random-draw stream: the lowest admissible base draw and zero
per-subject offsets. -/
def rZero : RandDraws :=
  { base := 70, deltas := fun _ => 0, confidence := 9 / 10, processingTime := 2 }

/-- Sample stored answer keys for a 100-question exam with detected set A. -/
def keysSample : KeysInfo :=
  { filename := "answer_keys.xlsx"
    availableSets := ['A']
    setMapping := [('A', "Set - A".toList)]
    totalQuestions := 100
    examId := "EXAM_1" }

/-- Sample stored answer keys for an exam configured with 50 questions
(the exam-creation form admits any multiple of 5 between 20 and 200). -/
def keysFifty : KeysInfo :=
  { keysSample with totalQuestions := 50 }

/-- Sample exam session: 100 questions, five declared subjects, expected
sets A and B. -/
def examSample : ExamConfig :=
  { id := "EXAM_1"
    totalQuestions := 100
    expectedSets := ['A', 'B']
    subjectConfig :=
      [("PYTHON", 20), ("DATA_ANALYSIS", 20), ("MySQL", 20), ("POWER_BI", 20), ("ADV_STATS", 20)] }

/-- Sample raw upload whose single table is named `Set - A` but has one
column (fewer than the five declared subjects), no question numbers and
an unparseable answer cell. -/
def malformedSheets : List (List Char × Grid) := [("Set - A".toList, [["garbage"]])]

/-- Sample scored result assigned to set A. -/
def resA : ProcessingResult :=
  { filename := "a.jpg"
    selectedSet := 'A'
    overallScore := 85
    totalCorrect := 85
    grade := .A
    subjectScores := []
    confidence := 9 / 10
    processingTime := 2
    examId := "EXAM_1" }

/-- Sample scored result assigned to set B. -/
def resB : ProcessingResult :=
  { filename := "b.jpg"
    selectedSet := 'B'
    overallScore := 72
    totalCorrect := 72
    grade := .B
    subjectScores := []
    confidence := 4 / 5
    processingTime := 3
    examId := "EXAM_1" }

/-- Sample well-formed upload: one table named `Set - A` with one row of
five answer cells. -/
def sheetsSetA : List (List Char × Grid) :=
  [("Set - A".toList, [["1 - a", "21 - b", "41 - c", "61 - d", "81 - a"]])]

/-- Sample stored keys value produced from `sheetsSetA`. -/
def storedA : KeysInfo :=
  { filename := "answer_keys.xlsx"
    availableSets := ['A']
    setMapping := [('A', "Set - A".toList)]
    totalQuestions := 100
    examId := "EXAM_1" }

/-! Helper lemmas shared by the claim theorems. -/

/-- Semantics of `find?` over the concrete four-letter priority list:
a hit satisfies the predicate and every higher-priority letter fails it. -/
theorem find_setLetters_eq_some {p : Char → Bool} {l : Char}
    (h : setLetters.find? p = some l) :
    p l = true ∧ ∀ l' ∈ setLetters.takeWhile (fun x => x ≠ l), p l' = false := by
  unfold setLetters at h ⊢
  cases hA : p 'A' <;> cases hB : p 'B' <;> cases hC : p 'C' <;> cases hD : p 'D' <;>
    simp [List.find?, hA, hB, hC, hD] at h <;> subst h <;>
    simp [List.takeWhile, hA, hB, hC, hD]

/-- The detection fold never claims a letter twice: the label component
of the accumulated mapping stays duplicate-free. -/
theorem detect_foldl_nodup :
    ∀ (names : List (List Char)) (acc : List (Char × List Char)),
      (acc.map Prod.fst).Nodup → ((names.foldl detectStep acc).map Prod.fst).Nodup := by
  intro names
  induction names with
  | nil => intro acc h; exact h
  | cons n ns ih =>
    intro acc h
    simp only [List.foldl_cons]
    apply ih
    unfold detectStep
    cases hf : setLetters.find?
        (fun l => (upperName n).contains l && !((acc.map Prod.fst).contains l)) with
    | none => exact h
    | some l =>
      have hp := List.find?_some hf
      simp only [List.map_append, List.map_cons, List.map_nil, List.nodup_append]
      refine ⟨h, List.nodup_singleton l, ?_⟩
      intro a ha hb
      simp only [List.mem_singleton] at hb
      subst hb
      simp only [Bool.and_eq_true, Bool.not_eq_true'] at hp
      have hcl : (acc.map Prod.fst).contains a = true := List.elem_eq_true_of_mem ha
      rw [hp.2] at hcl
      cases hcl

/-- Bounds for the clamped per-subject mock score: the clamp
`max(10, min(20, ...))` forces the value into 10..20 for every draw. -/
theorem clampedSubjectScore_bounds (base : ℕ) (d : ℤ) :
    10 ≤ clampedSubjectScore base d ∧ clampedSubjectScore base d ≤ 20 := by
  unfold clampedSubjectScore
  omega


/-- C6: aggregating an empty results log yields the zero statistics value
(count 0, displayed average 0) and no per-variant breakdown, without any
error or undefined average. -/
theorem empty_aggregation_zero :
    render_quick_stats [] = { processedCount := 0, avgScore := 0 } ∧ view_results [] = none :=
  ⟨rfl, rfl⟩

/-- C1: the scoring operation of the code, `generate_processing_result`,
takes no recognized answers and no key contents at all; with the random
draws fixed it awards the same positive correct count (here 70) for
every filename, selected set and key store, so a blank sheet is not
scored by comparing answer sets against the key. -/
theorem scoring_ignores_submission :
    ((generate_processing_result ("blank_sheet.jpg") 'A' keysSample rZero).totalCorrect = 70) ∧
    (∀ f f' : String, ∀ s s' : Char, ∀ k k' : KeysInfo, ∀ r : RandDraws,
      (generate_processing_result f s k r).totalCorrect =
        (generate_processing_result f' s' k' r).totalCorrect) :=
  ⟨rfl, fun _ _ _ _ _ _ _ => rfl⟩

/-- C5: a raw upload whose only table has one column (fewer than the
five declared subjects), no question numbers and an unparseable cell is
nevertheless accepted: the build succeeds and stores the keys, because
the code validates nothing but the presence of a detected set letter. -/
theorem malformed_key_accepted :
    (upload_process_keys examSample ("answer_keys.xlsx") malformedSheets).store =
      some { filename := "answer_keys.xlsx"
             availableSets := ['A']
             setMapping := [('A', "Set - A".toList)]
             totalQuestions := 100
             examId := "EXAM_1" } := by
  decide

/-- C2 counterexample: the raw table name `Answers Sheet` does yield an
entry from the set detector (it is claimed for set A), because the code
tests substring containment of the letter, not single-letter tokens. -/
theorem detect_answers_sheet_counterexample :
    detectSets ["Answers Sheet".toList] = [('A', "Answers Sheet".toList)] := by
  decide

/-- C2 (amended): a raw table name whose upper-cased form contains none
of the characters A, B, C, D, or whose candidate letters are all already
claimed by earlier tables, contributes no entry and does not abort the
processing of the other tables; in particular `Sheet1` yields no entry. -/
theorem detect_no_candidate_no_entry :
    (∀ pre (name : List Char) post,
        (setLetters.all (fun l => !((upperName name).contains l) ||
            (((detectSets pre).map Prod.fst).contains l)) = true) →
        detectSets (pre ++ name :: post) = detectSets (pre ++ post)) ∧
    detectSets ["Sheet1".toList] = [] := by
  constructor
  · intro pre name post hall
    unfold detectSets
    rw [List.foldl_append, List.foldl_append, List.foldl_cons]
    congr 1
    show detectStep (detectSets pre) name = detectSets pre
    unfold detectStep
    have hnone : setLetters.find?
        (fun l => (upperName name).contains l && !(((detectSets pre).map Prod.fst).contains l)) = none := by
      rw [List.find?_eq_none]
      intro l hl hcontra
      have hb := (List.all_eq_true.mp hall) l hl
      simp only [Bool.or_eq_true, Bool.not_eq_true'] at hb
      simp only [Bool.and_eq_true, Bool.not_eq_true'] at hcontra
      rcases hb with hb | hb
      · rw [hcontra.1] at hb
        cases hb
      · rw [hcontra.2] at hb
        cases hb
    rw [hnone]
  · decide

/-- C2 (amended) witness: the no-candidate rule applied to the concrete
name `Sheet1` sitting between two detectable tables. -/
theorem detect_no_candidate_no_entry_witness :
    (setLetters.all (fun l => !((upperName ("Sheet1".toList)).contains l) ||
        (((detectSets ["Set - A".toList]).map Prod.fst).contains l)) = true) ∧
    detectSets (["Set - A".toList] ++ "Sheet1".toList :: ["Key - B".toList]) =
      detectSets (["Set - A".toList] ++ ["Key - B".toList]) :=
  ⟨by decide,
   detect_no_candidate_no_entry.1 (["Set - A".toList]) ("Sheet1".toList) (["Key - B".toList])
     (by decide)⟩

/-- C4 counterexample: scored against keys for an exam configured with
50 questions, the result has 70 correct but an overall percentage of 70,
not 100 * 70 / 50 = 140: the denominator is the hard-coded 100, not the
exam total question count. -/
theorem percentage_fixed_denominator_counterexample :
    (generate_processing_result ("sheet1.jpg") 'A' keysFifty rZero).totalCorrect = 70 ∧
    keysFifty.totalQuestions = 50 ∧
    (generate_processing_result ("sheet1.jpg") 'A' keysFifty rZero).overallScore ≠
      100 * ((generate_processing_result ("sheet1.jpg") 'A' keysFifty rZero).totalCorrect : ℚ) /
        (keysFifty.totalQuestions : ℚ) := by
  refine ⟨rfl, rfl, ?_⟩
  show ((70 : ℚ) / 100) * 100 ≠ 100 * (70 : ℚ) / 50
  norm_num

/-- C4 (amended): every generated result satisfies the first conjunct —
the overall correct count is the sum of the per-subject correct counts —
while the overall percentage is `100 * overallCorrect / 100` with the
denominator fixed at 100 regardless of the exam total question count. -/
theorem overall_sum_and_fixed_denominator :
    ∀ (f : String) (s : Char) (k : KeysInfo) (r : RandDraws),
      ((generate_processing_result f s k r).totalCorrect =
        ((generate_processing_result f s k r).subjectScores.map (fun p => p.2.correct)).sum) ∧
      ((generate_processing_result f s k r).overallScore =
        100 * ((generate_processing_result f s k r).totalCorrect : ℚ) / 100) := by
  intro f s k r
  refine ⟨rfl, ?_⟩
  have h : (generate_processing_result f s k r).overallScore =
      (((generate_processing_result f s k r).totalCorrect : ℚ) / 100) * 100 := rfl
  rw [h]
  ring

/-- C3: the grade ladder is total and non-overlapping — on [0, 100] each
percentage falls in exactly the tier given by the inclusive lower
bounds 90/85/80/75/70 — and the assigned grade is monotonically
non-decreasing in the percentage. -/
theorem grade_ladder_total_monotone :
    (∀ p : ℚ, 0 ≤ p → p ≤ 100 →
      ((gradeOf p = .Ap ↔ 90 ≤ p) ∧
       (gradeOf p = .A ↔ 85 ≤ p ∧ p < 90) ∧
       (gradeOf p = .Am ↔ 80 ≤ p ∧ p < 85) ∧
       (gradeOf p = .Bp ↔ 75 ≤ p ∧ p < 80) ∧
       (gradeOf p = .B ↔ 70 ≤ p ∧ p < 75) ∧
       (gradeOf p = .Bm ↔ p < 70))) ∧
    (∀ p q : ℚ, p ≤ q → gradeRank (gradeOf p) ≤ gradeRank (gradeOf q)) := by
  constructor
  · intro p hp0 hp100
    unfold gradeOf
    split_ifs <;>
      refine ⟨?_, ?_, ?_, ?_, ?_, ?_⟩ <;> simp <;> intros <;>
        first | linarith | (constructor <;> linarith)
  · intro p q hpq
    unfold gradeOf
    split_ifs <;> simp [gradeRank] <;> linarith

/-- C3 witness: the ladder instantiated at 92 (tier A+) and the
monotonicity instantiated at 50 ≤ 95. -/
theorem grade_ladder_total_monotone_witness :
    gradeOf 92 = .Ap ∧ gradeRank (gradeOf 50) ≤ gradeRank (gradeOf 95) :=
  ⟨((grade_ladder_total_monotone.1 92 (by norm_num) (by norm_num)).1).mpr (by norm_num),
   grade_ladder_total_monotone.2 50 95 (by norm_num)⟩

/-- C10: every generated result carries exactly the five fixed subjects
PYTHON, DATA_ANALYSIS, MySQL, POWER_BI, ADV_STATS, each out of 20 with a
correct count clamped into 10..20, independently of the exam
configuration stored in the keys info; hence the total correct count is
between 50 and 100. -/
theorem mock_result_fixed_subjects_bounds :
    ∀ (f : String) (s : Char) (k : KeysInfo) (r : RandDraws),
      ((generate_processing_result f s k r).subjectScores.map Prod.fst = subjects) ∧
      (∀ p ∈ (generate_processing_result f s k r).subjectScores,
          p.2.total = 20 ∧ 10 ≤ p.2.correct ∧ p.2.correct ≤ 20) ∧
      (50 ≤ (generate_processing_result f s k r).totalCorrect) ∧
      ((generate_processing_result f s k r).totalCorrect ≤ 100) := by
  intro f s k r
  have h0 := clampedSubjectScore_bounds r.base (r.deltas 0)
  have h1 := clampedSubjectScore_bounds r.base (r.deltas 1)
  have h2 := clampedSubjectScore_bounds r.base (r.deltas 2)
  have h3 := clampedSubjectScore_bounds r.base (r.deltas 3)
  have h4 := clampedSubjectScore_bounds r.base (r.deltas 4)
  have hS : (generate_processing_result f s k r).subjectScores =
      [("PYTHON", mkSubjectScore (clampedSubjectScore r.base (r.deltas 0))),
       ("DATA_ANALYSIS", mkSubjectScore (clampedSubjectScore r.base (r.deltas 1))),
       ("MySQL", mkSubjectScore (clampedSubjectScore r.base (r.deltas 2))),
       ("POWER_BI", mkSubjectScore (clampedSubjectScore r.base (r.deltas 3))),
       ("ADV_STATS", mkSubjectScore (clampedSubjectScore r.base (r.deltas 4)))] := rfl
  have hT : (generate_processing_result f s k r).totalCorrect =
      clampedSubjectScore r.base (r.deltas 0) + (clampedSubjectScore r.base (r.deltas 1) +
        (clampedSubjectScore r.base (r.deltas 2) + (clampedSubjectScore r.base (r.deltas 3) +
          (clampedSubjectScore r.base (r.deltas 4) + 0)))) := rfl
  refine ⟨rfl, ?_, ?_, ?_⟩
  · intro p hp
    rw [hS] at hp
    simp only [List.mem_cons, List.not_mem_nil, or_false] at hp
    rcases hp with hp | hp | hp | hp | hp <;> subst hp <;>
      exact ⟨rfl, by simp only [mkSubjectScore]; omega⟩
  · rw [hT]; omega
  · rw [hT]; omega


/-- C7: the set detector assigns to a table the first letter in the
fixed priority order A, B, C, D that occurs (as a character) in the
upper-cased name and is unclaimed, each letter is assigned to at most
one table, and the mapping is a deterministic function of the name
sequence. -/
theorem detect_first_priority_unique_deterministic :
    (∀ acc name l, detectStep acc name = acc ++ [(l, name)] →
        ((upperName name).contains l = true ∧ (acc.map Prod.fst).contains l = false ∧
         ∀ l' ∈ setLetters.takeWhile (fun x => x ≠ l),
           ¬((upperName name).contains l' = true ∧ (acc.map Prod.fst).contains l' = false))) ∧
    (∀ names, ((detectSets names).map Prod.fst).Nodup) ∧
    (∀ names, detectSets names = detectSets names) := by
  refine ⟨?_, ?_, fun names => rfl⟩
  · intro acc name l heq
    unfold detectStep at heq
    cases hf : setLetters.find?
        (fun x => (upperName name).contains x && !((acc.map Prod.fst).contains x)) with
    | none =>
      rw [hf] at heq
      exact absurd heq (by simp)
    | some l0 =>
      rw [hf] at heq
      have hl0 : l0 = l := by
        have h2 := List.append_cancel_left heq
        simp only [List.cons.injEq, Prod.mk.injEq] at h2
        exact h2.1.1
      subst hl0
      obtain ⟨hpl, hrest⟩ := find_setLetters_eq_some hf
      simp only [Bool.and_eq_true, Bool.not_eq_true'] at hpl
      refine ⟨hpl.1, hpl.2, ?_⟩
      intro l' hl' hcon
      have hfalse := hrest l' hl'
      rw [hcon.1, hcon.2] at hfalse
      simp at hfalse
  · intro names
    exact detect_foldl_nodup names [] (by simp)

/-- C7 witness: the first table named `Set - A` is assigned letter A,
which occurs in the name, is unclaimed, and has no higher-priority
candidate. -/
theorem detect_first_priority_unique_deterministic_witness :
    (detectStep [] ("Set - A".toList) = [] ++ [('A', "Set - A".toList)]) ∧
    ((upperName ("Set - A".toList)).contains 'A' = true ∧
     (([] : List (Char × List Char)).map Prod.fst).contains 'A' = false ∧
     ∀ l' ∈ setLetters.takeWhile (fun x => x ≠ 'A'),
       ¬((upperName ("Set - A".toList)).contains l' = true ∧
         (([] : List (Char × List Char)).map Prod.fst).contains l' = false)) :=
  ⟨by decide,
   detect_first_priority_unique_deterministic.1 [] ("Set - A".toList) 'A' (by decide)⟩

/-- C8 counterexample: with expected sets A and B but only a `Set - A`
table uploaded, the build succeeds storing set A only, and the
processing block emits no warning at all — the absence of expected set
B is silently ignored rather than reported as a warning. -/
theorem expected_absence_no_warning_counterexample :
    ('B' ∈ examSample.expectedSets) ∧
    ((upload_process_keys examSample ("answer_keys.xlsx") sheetsSetA).store = some storedA) ∧
    ('B' ∉ storedA.availableSets) ∧
    ((upload_process_keys examSample ("answer_keys.xlsx") sheetsSetA).warnings = []) := by
  decide

/-- C8 (amended): the build succeeds exactly when at least one set is
detected, the queryable labels are exactly the detected labels, no
warning is ever emitted, and the outcome does not depend on the exam
expected-variants list at all. -/
theorem store_variants_detected_only :
    (∀ (exam : ExamConfig) (fname : String) (sheets : List (List Char × Grid)),
        ((upload_process_keys exam fname sheets).store.isSome ↔
          detectSets (sheets.map Prod.fst) ≠ []) ∧
        (∀ k, (upload_process_keys exam fname sheets).store = some k →
          k.availableSets = (detectSets (sheets.map Prod.fst)).map Prod.fst) ∧
        ((upload_process_keys exam fname sheets).warnings = [])) ∧
    (∀ (exam : ExamConfig) (es : List Char) (fname : String) (sheets : List (List Char × Grid)),
        upload_process_keys { exam with expectedSets := es } fname sheets =
          upload_process_keys exam fname sheets) := by
  constructor
  · intro exam fname sheets
    by_cases h : (detectSets (sheets.map Prod.fst)).isEmpty
    · have heq : detectSets (sheets.map Prod.fst) = [] := by
        cases hd : detectSets (sheets.map Prod.fst) with
        | nil => rfl
        | cons a as => rw [hd] at h; cases h
      simp [upload_process_keys, h, heq]
    · have hne : detectSets (sheets.map Prod.fst) ≠ [] := by
        intro hh
        rw [hh] at h
        exact h rfl
      simp [upload_process_keys, h, hne]
  · intro exam es fname sheets
    rfl

/-- C8 (amended) witness: the rule applied to the concrete single-table
upload `Set - A` under an exam expecting sets A and B. -/
theorem store_variants_detected_only_witness :
    ((upload_process_keys examSample ("answer_keys.xlsx") sheetsSetA).store = some storedA) ∧
    storedA.availableSets = (detectSets (sheetsSetA.map Prod.fst)).map Prod.fst :=
  ⟨by decide,
   (store_variants_detected_only.1 examSample ("answer_keys.xlsx") sheetsSetA).2.1 storedA
     (by decide)⟩

/-- C9: batch aggregation is a pure function of its input sequence and
invariant under permutation: sheet count, mean score, mean confidence,
high-performer count, every per-variant mean and every per-variant
grade-histogram entry agree on any two permuted result sequences. -/
theorem aggregate_perm_invariant :
    ∀ results results' : List ProcessingResult, results.Perm results' →
      batchTotal results = batchTotal results' ∧
      batchAvgScore results = batchAvgScore results' ∧
      batchAvgConfidence results = batchAvgConfidence results' ∧
      batchHighScorers results = batchHighScorers results' ∧
      (∀ s, setAvgScore s results = setAvgScore s results') ∧
      (∀ s g, setGradeCount s g results = setGradeCount s g results') := by
  intro res res' h
  have hmean : ∀ (f : ProcessingResult → ℚ) (l l' : List ProcessingResult), l.Perm l' →
      mean (l.map f) = mean (l'.map f) := by
    intro f l l' hp
    unfold mean
    rw [(hp.map f).sum_eq, (hp.map f).length_eq]
  refine ⟨h.length_eq, hmean _ _ _ h, hmean _ _ _ h, (h.filter _).length_eq, ?_, ?_⟩
  · intro s
    exact hmean _ _ _ (h.filter _)
  · intro s g
    exact ((h.filter _).filter _).length_eq

/-- C9 witness: the invariance applied to the concrete two-element batch
[resA, resB] and its transposition. -/
theorem aggregate_perm_invariant_witness :
    ([resA, resB].Perm [resB, resA]) ∧
    batchAvgScore [resA, resB] = batchAvgScore [resB, resA] ∧
    setAvgScore 'A' [resA, resB] = setAvgScore 'A' [resB, resA] :=
  ⟨List.Perm.swap resB resA [],
   (aggregate_perm_invariant [resA, resB] [resB, resA] (List.Perm.swap resB resA [])).2.1,
   (aggregate_perm_invariant [resA, resB] [resB, resA] (List.Perm.swap resB resA [])).2.2.2.2.1 'A'⟩

/-- C10 witness: the subject bounds applied to the concrete result
generated from the sample draws. -/
theorem mock_result_fixed_subjects_bounds_witness :
    (50 ≤ (generate_processing_result ("s.jpg") 'A' keysSample rZero).totalCorrect) ∧
    (("PYTHON", mkSubjectScore (clampedSubjectScore 70 0)).2.total = 20 ∧
     10 ≤ ("PYTHON", mkSubjectScore (clampedSubjectScore 70 0)).2.correct ∧
     ("PYTHON", mkSubjectScore (clampedSubjectScore 70 0)).2.correct ≤ 20) :=
  ⟨(mock_result_fixed_subjects_bounds ("s.jpg") 'A' keysSample rZero).2.2.1,
   (mock_result_fixed_subjects_bounds ("s.jpg") 'A' keysSample rZero).2.1
     ("PYTHON", mkSubjectScore (clampedSubjectScore 70 0)) (by exact List.mem_cons_self _ _)⟩

end OMR
